import Mathlib

/-!
Verification of the MEDIA-BASHER dashboard against its specification.

The React pages under `src/frontend/src` (and the unnamed page files) are
embedded shallowly: each event handler becomes a pure Lean function from the
component state it reads to the state it writes and the HTTP requests it
issues.  Backend components that are described by the specification but whose
code is not part of the repository snapshot (the template-registry seed, the
update orchestrator, the alert poller, the `/system/metrics` response shape)
are modelled from the specification text and marked as such in their doc
comments.
-/

namespace MediaBasher

/-! ### formatBytes (StoragePage.js 79-85, DashboardPage.js 38-44, BackupPage.js 83-89)

The three pages each define a local `formatBytes`.  Byte counts are natural
numbers; the JS expression `Math.floor(Math.log(bytes) / Math.log(1024))` is
the base-1024 logarithm, `toFixed(2)` rounds to hundredths, and `parseFloat`
drops trailing fractional zeros before the unit is appended. -/

/-- Round `num / den` to the nearest hundredth, halves away from zero, and
return the result as a count of hundredths (the value `toFixed(2)` denotes). -/
def roundHundredths (num den : Nat) : Nat :=
  (200 * num + den) / (2 * den)

/-- Render a count of hundredths the way JS prints `parseFloat(x.toFixed(2))`:
trailing fractional zeros are dropped. -/
def renderHundredths (n : Nat) : String :=
  let whole := n / 100
  let frac := n % 100
  if frac = 0 then toString whole
  else if frac % 10 = 0 then toString whole ++ "." ++ toString (frac / 10)
  else if frac < 10 then toString whole ++ ".0" ++ toString frac
  else toString whole ++ "." ++ toString frac

/-- The unit array `['B', 'KB', 'MB', 'GB', 'TB']`; JS indexing out of range
yields `undefined`, which string concatenation prints as "undefined". -/
def sizeUnit (i : Nat) : String :=
  (["B", "KB", "MB", "GB", "TB"].get? i).getD "undefined"

namespace StoragePage

/-- `formatBytes` as defined in StoragePage.js lines 79-85. -/
def formatBytes (bytes : Nat) : String :=
  if bytes = 0 then "0 B"
  else
    let i := Nat.log 1024 bytes
    renderHundredths (roundHundredths bytes (1024 ^ i)) ++ " " ++ sizeUnit i

end StoragePage

namespace DashboardPage

/-- `formatBytes` as defined in DashboardPage.js lines 38-44. -/
def formatBytes (bytes : Nat) : String :=
  if bytes = 0 then "0 B"
  else
    let i := Nat.log 1024 bytes
    renderHundredths (roundHundredths bytes (1024 ^ i)) ++ " " ++ sizeUnit i

end DashboardPage

namespace BackupPage

/-- `formatBytes` as defined in BackupPage.js lines 83-89. -/
def formatBytes (bytes : Nat) : String :=
  if bytes = 0 then "0 B"
  else
    let i := Nat.log 1024 bytes
    renderHundredths (roundHundredths bytes (1024 ^ i)) ++ " " ++ sizeUnit i

end BackupPage

/-- The mapping described by the specification sentence: 0 maps to "0 B", a
positive byte count `b` maps to `b / 1024 ^ i` rounded to two decimal places
followed by the unit indexed by `i = floor(log b / log 1024)` (which equals
`Nat.log 1024 b` for positive `b`). -/
def formatBytesSpec (b : Nat) : String :=
  if b = 0 then "0 B"
  else
    renderHundredths (roundHundredths b (1024 ^ Nat.log 1024 b)) ++ " " ++
      sizeUnit (Nat.log 1024 b)

/-! ### Backup restore confirmation (BackupPage.js 69-81)

`restoreBackup` first raises a `confirm` prompt and returns without doing
anything when the user declines; only on an affirmative answer does it POST
`/advanced/backup/restore` with the backup path. -/

/-- An HTTP request the Backup page can issue from `restoreBackup`. -/
inductive BackupRequest
  | postRestore (backupPath : String)
deriving DecidableEq

/-- `BackupPage.restoreBackup`: the list of requests issued given the user's
answer to the confirmation prompt (BackupPage.js lines 69-81). -/
def restoreBackup (confirmed : Bool) (backupPath : String) : List BackupRequest :=
  if !confirmed then []
  else [.postRestore backupPath]

/-! ### Route guarding (App.js 68-99)

`PrivateRoute` renders its children when `localStorage` holds a token and a
redirect to `/login` otherwise; every route nested under `/` is wrapped in it,
while the `/login` route is not. -/

/-- The routes nested under `/` inside the `PrivateRoute`-guarded
`DashboardLayout` (App.js lines 87-98). -/
inductive NestedRoute
  | index
  | applications
  | containers
  | containerLogs
  | storage
  | settings
  | updates
  | compose
  | notifications
  | networks
  | monitoring
  | backup
deriving DecidableEq

/-- A route of the application: `/login`, or a route nested under `/`. -/
inductive AppRoute
  | login
  | nested (r : NestedRoute)
deriving DecidableEq

/-- What the router renders for a route. -/
inductive Rendered
  | loginPage
  | redirectToLogin
  | pageContent (r : NestedRoute)
deriving DecidableEq

/-- The App routes with the `PrivateRoute` guard (App.js lines 68-99):
`/login` is served unguarded; every nested route renders its page when a token
is present in localStorage and a `Navigate` to `/login` otherwise. -/
def renderRoute (tokenPresent : Bool) : AppRoute → Rendered
  | .login => .loginPage
  | .nested r => if tokenPresent then .pageContent r else .redirectToLogin

/-! ### Add Storage Pool form (StoragePage.js 31-35, 55-66, 182-224)

The `newPool` state starts as `{ name: '', path: '', pool_type: 'local' }`.
The name input writes the `name` key; the mount-point input reads and writes
the `mount_point` key, which the initial state does not have, so it is modelled
as an `Option`.  `addPool` POSTs the `newPool` object as-is to
`/storage/pools`, and the save button is disabled while `!newPool.name` or
`!newPool.mount_point` holds. -/

/-- The `newPool` component state.  `mount_point` is optional because the
initial object has no such key; the spread in the input's `onChange` adds it. -/
structure NewPoolForm where
  name : String
  path : String
  pool_type : String
  mount_point : Option String
deriving DecidableEq

/-- Initial `newPool` state (StoragePage.js lines 31-35): `path` is the empty
string and there is no `mount_point` key. -/
def initialNewPool : NewPoolForm :=
  { name := "", path := "", pool_type := "local", mount_point := none }

/-- The pool-name input's `onChange` (StoragePage.js line 187). -/
def typePoolName (v : String) (f : NewPoolForm) : NewPoolForm :=
  { f with name := v }

/-- The mount-point input's `onChange` (StoragePage.js line 198): it spreads
the form and sets the `mount_point` key — not `path`. -/
def typeMountPoint (v : String) (f : NewPoolForm) : NewPoolForm :=
  { f with mount_point := some v }

/-- JS truthiness of the optional `mount_point` string: absent or empty is
falsy. -/
def mountPointTruthy : Option String → Bool
  | none => false
  | some s => !(s = "")

/-- The save button's enabled condition (StoragePage.js line 220):
`!(!newPool.name || !newPool.mount_point)`. -/
def saveStorageEnabled (f : NewPoolForm) : Bool :=
  !(f.name = "") && mountPointTruthy f.mount_point

/-- `addPool` (StoragePage.js lines 55-66) POSTs the current `newPool` object
unchanged as the request body of `POST /storage/pools`. -/
def addPoolBody (f : NewPoolForm) : NewPoolForm := f

/-! ### /system/metrics response and its consumers
(DashboardPage.js 88-111, MonitoringPage in part_004 lines 26-34)

The response shape is backend code absent from the snapshot; it is modelled
from the specification.  The pages read fields off the JSON object with
optional chaining, so the response is embedded as a partial map from key to
numeric value. -/

/-- Modelled from the spec: the documented response of `GET /system/metrics`,
with fields cpu_percent, memory_percent, disk_percent and gpu_info (the numeric
fields; `gpu_info` is not read by the RAM or Storage cards). -/
structure SystemMetricsResponse where
  cpu_percent : ℚ
  memory_percent : ℚ
  disk_percent : ℚ
deriving DecidableEq

/-- The documented response as the JSON object the pages receive: a partial
map from field name to numeric value, holding exactly the documented keys. -/
def metricsJson (m : SystemMetricsResponse) : String → Option ℚ := fun k =>
  if k = "cpu_percent" then some m.cpu_percent
  else if k = "memory_percent" then some m.memory_percent
  else if k = "disk_percent" then some m.disk_percent
  else none

/-- The value the Dashboard RAM card displays: `metrics?.ram_percent`
(DashboardPage.js lines 89-90); `none` renders as an empty value. -/
def dashboardRamValue (resp : String → Option ℚ) : Option ℚ :=
  resp "ram_percent"

/-- The value the Dashboard Storage card displays: `metrics?.storage_percent`
(DashboardPage.js lines 106-108). -/
def dashboardStorageValue (resp : String → Option ℚ) : Option ℚ :=
  resp "storage_percent"

/-- The RAM value the Monitoring page charts: `currentMetrics.memory_percent`
(part_004 line 32). -/
def monitoringRamValue (resp : String → Option ℚ) : Option ℚ :=
  resp "memory_percent"

/-- The disk value the Monitoring page charts: `currentMetrics.disk_percent`
(part_004 line 33). -/
def monitoringDiskValue (resp : String → Option ℚ) : Option ℚ :=
  resp "disk_percent"

/-! ### Login submission (LoginPage in part_007 lines 206-229)

On a successful `POST /auth/login` or `/auth/register`, `handleSubmit` stores
the token under the localStorage key `token`, builds a user object with JS
`||` fallbacks, stores it under `user`, and navigates to `/`. -/

/-- A successful auth response.  `username` and `first_login` are optional so
that absent JSON fields are representable. -/
structure AuthResponse where
  token : String
  username : Option String
  first_login : Option Bool
deriving DecidableEq

/-- The user object the login page stores. -/
structure StoredUser where
  username : String
  first_login : Bool
deriving DecidableEq

/-- The localStorage entries the login page writes. -/
structure LoginStorage where
  token : String
  user : StoredUser
deriving DecidableEq

/-- JS `a || b` for an optional string: an absent or empty string falls back. -/
def jsOrString (a : Option String) (b : String) : String :=
  match a with
  | none => b
  | some s => if s = "" then b else s

/-- JS `a || false` for an optional boolean. -/
def jsOrFalse (a : Option Bool) : Bool :=
  match a with
  | none => false
  | some b => b

/-- `handleSubmit`'s success path (part_007 lines 215-223): the localStorage
writes and the navigation target. -/
def handleSubmitSuccess (formUsername : String) (resp : AuthResponse) :
    LoginStorage × String :=
  ({ token := resp.token
   , user :=
     { username := jsOrString resp.username formUsername
     , first_login := jsOrFalse resp.first_login } },
   "/")

/-! ### Metrics/Alert poller (spec section 4.6; backend code absent from src/)

The poller's per-rule evaluation is modelled from the specification: on each
sample, compare against the threshold with the rule's comparison operator and
emit a notification only on a true condition transitioning from not-triggered
(edge-triggered, not level-triggered). -/

/-- An alert rule's comparison operator. -/
inductive Comparison
  | gt
  | lt
deriving DecidableEq

/-- Modelled from the spec: an AlertRule's fields the poller evaluates
(metric name, comparison, threshold percentage). -/
structure AlertRule where
  metric : String
  comparison : Comparison
  threshold : ℚ
deriving DecidableEq

/-- Whether a sampled metric value satisfies the rule's condition. -/
def evalCond (r : AlertRule) (sample : ℚ) : Bool :=
  match r.comparison with
  | .gt => decide (r.threshold < sample)
  | .lt => decide (sample < r.threshold)

/-- The poller's per-rule state: whether the rule is currently triggered. -/
structure PollerState where
  triggered : Bool
deriving DecidableEq

/-- Modelled from the spec: one poll cycle for one rule.  Returns the next
state and whether a notification is emitted — only on a true condition when
the rule was not already triggered. -/
def pollStep (r : AlertRule) (st : PollerState) (sample : ℚ) : PollerState × Bool :=
  let cond := evalCond r sample
  (⟨cond⟩, cond && !st.triggered)

/-- Feed a sample sequence to the poller, returning the final state and the
number of notifications emitted. -/
def pollRun (r : AlertRule) (st : PollerState) : List ℚ → PollerState × Nat
  | [] => (st, 0)
  | s :: rest =>
    let out := pollStep r st s
    let tail := pollRun r out.1 rest
    (tail.1, (if out.2 then 1 else 0) + tail.2)

/-- Notifications emitted for a rule over a sample sequence, starting from the
not-triggered state. -/
def notificationCount (r : AlertRule) (samples : List ℚ) : Nat :=
  (pollRun r ⟨false⟩ samples).2

/-- The rule of the claim: threshold 80, comparison gt. -/
def cpuRule80gt : AlertRule :=
  { metric := "cpu", comparison := .gt, threshold := 80 }

/-! ### Template registry seeding (spec section 4.1; backend code absent from
src/, the frontend only POSTs /applications/seed in part_006 lines 50-58)

`seed()` idempotently inserts a fixed built-in catalog and is a no-op for any
template whose id already exists. -/

/-- An application template as the registry stores it. -/
structure AppTemplate where
  id : String
  name : String
  docker_image : String
  official : Bool
deriving DecidableEq

/-- Modelled from the spec: the fixed built-in catalog of official templates
(the concrete entries stand for the catalog; their ids are distinct). -/
def builtinCatalog : List AppTemplate :=
  [ { id := "jellyfin", name := "Jellyfin", docker_image := "jellyfin/jellyfin:latest",
      official := true }
  , { id := "plex", name := "Plex", docker_image := "plexinc/pms-docker:latest",
      official := true }
  , { id := "sonarr", name := "Sonarr", docker_image := "linuxserver/sonarr:latest",
      official := true }
  , { id := "radarr", name := "Radarr", docker_image := "linuxserver/radarr:latest",
      official := true } ]

/-- Whether some template in the registry already carries the id. -/
def hasId (r : List AppTemplate) (i : String) : Bool :=
  r.any fun t => t.id = i

/-- Modelled from the spec: insert one catalog template, a no-op when its id
already exists in the registry. -/
def seedOne (r : List AppTemplate) (t : AppTemplate) : List AppTemplate :=
  if hasId r t.id then r else r ++ [t]

/-- Modelled from the spec: `seed()` inserts the built-in catalog, skipping
templates whose id already exists. -/
def seed (r : List AppTemplate) : List AppTemplate :=
  builtinCatalog.foldl seedOne r

/-- The ids held by a registry state. -/
def registryIds (r : List AppTemplate) : List String :=
  r.map fun t => t.id

/-! ### Update orchestrator (spec section 4.4; backend code absent from src/,
the frontend only POSTs /advanced/containers/id/update in UpdatesPage)

`update` inspects the current image digest, pulls the latest tag, compares,
and either reports up-to-date or stops, removes and recreates the container
with the identical spec against the newly pulled image. -/

/-- The container spec an update recreates: name, image reference, ports,
volumes and environment. -/
structure ContainerSpec where
  name : String
  image : String
  ports : List (Nat × Nat)
  volumes : List (String × String)
  env : List (String × String)
deriving DecidableEq

/-- A container as the engine reports it: id, spec, and the digest of the
image it currently runs. -/
structure Container where
  id : String
  spec : ContainerSpec
  imageDigest : String
deriving DecidableEq

/-- The engine calls the update orchestrator can make. -/
inductive EngineCall
  | inspectImage (id : String)
  | pullImage (image : String)
  | stopContainer (id : String)
  | removeContainer (id : String)
  | createContainer (spec : ContainerSpec)
deriving DecidableEq

/-- Whether an engine call mutates container state (stop, remove or create). -/
def isMutatingCall : EngineCall → Bool
  | .stopContainer _ => true
  | .removeContainer _ => true
  | .createContainer _ => true
  | _ => false

/-- Modelled from the spec: the update orchestrator.  `latestDigest` is the
digest the pull of the latest tag yields and `freshId` the id the engine
assigns on recreation.  Equal digests: report up to date, no mutation.
Different digests: stop, remove, recreate with the identical spec (the same
image reference, now resolving to the new digest). -/
def updateContainer (c : Container) (latestDigest freshId : String) :
    Container × List EngineCall :=
  if c.imageDigest = latestDigest then
    (c, [.inspectImage c.id, .pullImage c.spec.image])
  else
    ({ id := freshId, spec := c.spec, imageDigest := latestDigest },
     [.inspectImage c.id, .pullImage c.spec.image,
      .stopContainer c.id, .removeContainer c.id, .createContainer c.spec])

/-! ### Networks page delete guard (NetworksPage in part_008)

The remove button is rendered only for networks whose name is not bridge,
host or none (line 144); the button opens the delete confirmation dialog, and
confirming the dialog issues DELETE /advanced/networks/{id} for the dialog's
network (lines 77-88, 218-237). -/

/-- A Docker network as the page lists it. -/
structure DockerNetwork where
  id : String
  name : String
deriving DecidableEq

/-- The built-in network names the page never offers to delete. -/
def builtinNetworkNames : List String := ["bridge", "host", "none"]

/-- Whether the remove button is rendered for a network (part_008 line 144). -/
def removeButtonShown (n : DockerNetwork) : Bool :=
  !(builtinNetworkNames.contains n.name)

/-- The Networks page state the delete flow touches: the listed networks and
the delete-confirmation dialog. -/
structure NetworksPageState where
  networks : List DockerNetwork
  dialogOpen : Bool
  dialogNetwork : Option DockerNetwork
deriving DecidableEq

/-- The page state right after loading a list of networks. -/
def initialNetworksState (nets : List DockerNetwork) : NetworksPageState :=
  { networks := nets, dialogOpen := false, dialogNetwork := none }

/-- The user interactions of the delete flow. -/
inductive NetworksEvent
  | clickRemoveButton (n : DockerNetwork)
  | dialogOpenChange (b : Bool)
  | confirmRemove
deriving DecidableEq

/-- A request the Networks page can issue from the delete flow; the target is
the dialog's network (absent when the dialog holds none, in which case the
URL ends in undefined). -/
inductive NetworksRequest
  | deleteNetwork (target : Option DockerNetwork)
deriving DecidableEq

/-- One step of the delete flow.  Clicking remove only has an effect when the
button is rendered, i.e. the network is listed and not built-in (part_008
lines 144-153); the dialog's onOpenChange clears the network (line 218);
confirming issues the DELETE for the dialog network and closes the dialog
(lines 77-88, 229-234). -/
def networksStep (st : NetworksPageState) :
    NetworksEvent → NetworksPageState × List NetworksRequest
  | .clickRemoveButton n =>
    if st.networks.contains n && removeButtonShown n then
      ({ st with dialogOpen := true, dialogNetwork := some n }, [])
    else (st, [])
  | .dialogOpenChange b =>
    ({ st with dialogOpen := b, dialogNetwork := none }, [])
  | .confirmRemove =>
    if st.dialogOpen then
      ({ st with dialogOpen := false, dialogNetwork := none },
       [.deleteNetwork st.dialogNetwork])
    else (st, [])

/-- Run a sequence of interactions, accumulating the issued requests. -/
def networksRun (st : NetworksPageState) :
    List NetworksEvent → NetworksPageState × List NetworksRequest
  | [] => (st, [])
  | e :: rest =>
    let out := networksStep st e
    let tail := networksRun out.1 rest
    (tail.1, out.2 ++ tail.2)

/-- The delete-dialog invariant: a network held by the dialog is never one of
the built-in networks. -/
def dialogInvariant (st : NetworksPageState) : Prop :=
  ∀ n : DockerNetwork, st.dialogNetwork = some n →
    builtinNetworkNames.contains n.name = false

/-- A registry state that already holds two templates with the same id. -/
def dupRegistry : List AppTemplate :=
  [ { id := "jellyfin", name := "Jellyfin A", docker_image := "a:1", official := false }
  , { id := "jellyfin", name := "Jellyfin B", docker_image := "b:1", official := false } ]

/-- A concrete container spec for the update witness. -/
def sampleSpec : ContainerSpec :=
  { name := "jellyfin", image := "jellyfin/jellyfin:latest",
    ports := [(8096, 8096)], volumes := [("/srv/config", "/config")],
    env := [("TZ", "UTC")] }

/-- A concrete container for the update witness. -/
def sampleContainer : Container :=
  { id := "abc123", spec := sampleSpec, imageDigest := "sha256:aaa" }

end MediaBasher

namespace MediaBasher

/-- C10: the formatBytes helpers duplicated in the Storage, Dashboard, and
Backup pages compute the same function, mapping 0 to "0 B" and a positive byte
count `b` to `b / 1024 ^ i` rounded to two decimal places with the unit
`['B','KB','MB','GB','TB']` indexed by `i = floor(log b / log 1024)`. -/
theorem formatBytes_copies_agree_and_match_spec (b : Nat) :
    StoragePage.formatBytes b = DashboardPage.formatBytes b ∧
    StoragePage.formatBytes b = BackupPage.formatBytes b ∧
    StoragePage.formatBytes b = formatBytesSpec b := by
  refine ⟨rfl, rfl, ?_⟩
  unfold StoragePage.formatBytes formatBytesSpec
  rfl

/-- C7: the restore POST is issued only after the user affirms the
confirmation prompt; a declined confirmation sends no request at all. -/
theorem restoreBackup_requires_confirmation (backupPath : String) :
    restoreBackup false backupPath = [] ∧
    restoreBackup true backupPath = [.postRestore backupPath] := by
  exact ⟨rfl, rfl⟩

/-- C8: without a token every route nested under `/` renders a redirect to
`/login`, with a token it renders the page content, and `/login` itself is
reachable without a token. -/
theorem privateRoute_guards_nested_routes (r : NestedRoute) :
    renderRoute false (.nested r) = .redirectToLogin ∧
    renderRoute true (.nested r) = .pageContent r ∧
    renderRoute false .login = .loginPage := by
  exact ⟨rfl, rfl, rfl⟩

/-- C1, counterexample: submitting the Add Storage Pool form after typing the
name "Media" and the mount point "/mnt/media" yields a request body whose
`path` field is still the empty string, not the typed mount point — the typed
value is stored under `mount_point` instead. -/
theorem addPool_path_not_mount_point :
    (addPoolBody (typeMountPoint "/mnt/media" (typePoolName "Media" initialNewPool))).path
        ≠ "/mnt/media" ∧
    (addPoolBody (typeMountPoint "/mnt/media" (typePoolName "Media" initialNewPool))).path
        = "" ∧
    (addPoolBody (typeMountPoint "/mnt/media" (typePoolName "Media" initialNewPool))).mount_point
        = some "/mnt/media" ∧
    saveStorageEnabled (typeMountPoint "/mnt/media" (typePoolName "Media" initialNewPool))
        = true := by
  refine ⟨?_, rfl, rfl, rfl⟩
  decide

/-- C1, amended: for every submission with a non-empty name and non-empty
typed mount point the save button is enabled and the POSTed body carries the
typed mount point under the `mount_point` key, while its `path` field remains
the empty string of the initial state and `pool_type` keeps the selected
default. -/
theorem addPool_body_fields (n mp : String) (hn : n ≠ "") (hmp : mp ≠ "") :
    saveStorageEnabled (typeMountPoint mp (typePoolName n initialNewPool)) = true ∧
    (addPoolBody (typeMountPoint mp (typePoolName n initialNewPool))).name = n ∧
    (addPoolBody (typeMountPoint mp (typePoolName n initialNewPool))).mount_point = some mp ∧
    (addPoolBody (typeMountPoint mp (typePoolName n initialNewPool))).path = "" ∧
    (addPoolBody (typeMountPoint mp (typePoolName n initialNewPool))).pool_type = "local" := by
  refine ⟨?_, rfl, rfl, rfl, rfl⟩
  simp [saveStorageEnabled, typeMountPoint, typePoolName, initialNewPool, mountPointTruthy,
    hn, hmp]

/-- C1, witness for the amended theorem at name "Media" and mount point
"/mnt/media". -/
theorem addPool_body_fields_witness :
    saveStorageEnabled (typeMountPoint "/mnt/media" (typePoolName "Media" initialNewPool))
        = true ∧
    (addPoolBody (typeMountPoint "/mnt/media" (typePoolName "Media" initialNewPool))).name
        = "Media" ∧
    (addPoolBody (typeMountPoint "/mnt/media" (typePoolName "Media" initialNewPool))).mount_point
        = some "/mnt/media" ∧
    (addPoolBody (typeMountPoint "/mnt/media" (typePoolName "Media" initialNewPool))).path
        = "" ∧
    (addPoolBody (typeMountPoint "/mnt/media" (typePoolName "Media" initialNewPool))).pool_type
        = "local" :=
  addPool_body_fields "Media" "/mnt/media" (by decide) (by decide)

/-- C2: on the documented `/system/metrics` response with cpu 50, memory 60
and disk 70, the Dashboard RAM and Storage cards read the absent keys
`ram_percent` and `storage_percent` and get nothing, while the Monitoring page
reads `memory_percent` and `disk_percent` and gets the response values — the
Dashboard does not display `memory_percent` and `disk_percent` as claimed. -/
theorem dashboard_reads_absent_metric_keys :
    dashboardRamValue (metricsJson ⟨50, 60, 70⟩) = none ∧
    dashboardStorageValue (metricsJson ⟨50, 60, 70⟩) = none ∧
    monitoringRamValue (metricsJson ⟨50, 60, 70⟩) = some 60 ∧
    monitoringDiskValue (metricsJson ⟨50, 60, 70⟩) = some 70 ∧
    dashboardRamValue (metricsJson ⟨50, 60, 70⟩) ≠ some 60 := by
  refine ⟨rfl, rfl, rfl, rfl, ?_⟩
  decide

/-- C3: on a successful auth response the login page stores the token, stores
a user whose username is the response username (falling back to the submitted
one when the response carries none) and whose first_login is the response
value with absent read as false, and navigates to the root route. -/
theorem login_stores_token_and_user (formUsername : String) (resp : AuthResponse)
    (u : String) (hu : resp.username = some u) (hne : u ≠ "") :
    (handleSubmitSuccess formUsername resp).1.token = resp.token ∧
    (handleSubmitSuccess formUsername resp).1.user.username = u ∧
    (handleSubmitSuccess formUsername resp).1.user.first_login
        = (resp.first_login.getD false) ∧
    (handleSubmitSuccess formUsername resp).2 = "/" ∧
    (∀ r : AuthResponse, r.username = none →
      (handleSubmitSuccess formUsername r).1.user.username = formUsername) := by
  refine ⟨rfl, ?_, ?_, rfl, ?_⟩
  · simp [handleSubmitSuccess, jsOrString, hu, hne]
  · cases h : resp.first_login <;> simp [handleSubmitSuccess, jsOrFalse, h]
  · intro r hr
    simp [handleSubmitSuccess, jsOrString, hr]

/-- While a rule stays triggered and its condition stays true, no poll cycle
emits a notification. -/
theorem pollRun_no_emit_of_triggered (r : AlertRule) (samples : List ℚ) :
    ∀ st : PollerState, st.triggered = true →
      (∀ s ∈ samples, evalCond r s = true) → (pollRun r st samples).2 = 0 := by
  induction samples with
  | nil => intro st _ _; rfl
  | cons s rest ih =>
    intro st hst hall
    have hcond : evalCond r s = true := hall s (List.mem_cons_self s rest)
    have htail : (pollRun r ⟨true⟩ rest).2 = 0 :=
      ih ⟨true⟩ rfl fun x hx => hall x (List.mem_cons_of_mem s hx)
    simp [pollRun, pollStep, hcond, hst, htail]

/-- C4: with threshold 80 and comparison gt, the samples 85 then 90 emit one
notification and 85, 70, 85 emit two; in general a triggered rule emits
nothing while its condition stays continuously true, a false condition resets
the triggered state without emitting, and a true condition on a not-triggered
rule emits. -/
theorem alert_poller_edge_triggered :
    notificationCount cpuRule80gt [85, 90] = 1 ∧
    notificationCount cpuRule80gt [85, 70, 85] = 2 ∧
    (∀ (r : AlertRule) (st : PollerState) (samples : List ℚ),
      st.triggered = true → (∀ s ∈ samples, evalCond r s = true) →
      (pollRun r st samples).2 = 0) ∧
    (∀ (r : AlertRule) (st : PollerState) (s : ℚ), evalCond r s = false →
      (pollStep r st s).1.triggered = false ∧ (pollStep r st s).2 = false) ∧
    (∀ (r : AlertRule) (st : PollerState) (s : ℚ),
      st.triggered = false → evalCond r s = true → (pollStep r st s).2 = true) := by
  refine ⟨by decide, by decide,
    fun r st samples hst hall => pollRun_no_emit_of_triggered r samples st hst hall,
    ?_, ?_⟩
  · intro r st s h
    exact ⟨by simp [pollStep, h], by simp [pollStep, h]⟩
  · intro r st s hst h
    simp [pollStep, h, hst]

/-- C4, witness: the poller theorem applied to the rule of the claim, the
triggered state with all-true samples, a false sample, and a fresh true
sample. -/
theorem alert_poller_edge_triggered_witness :
    notificationCount cpuRule80gt [85, 90] = 1 ∧
    (pollRun cpuRule80gt ⟨true⟩ [85, 90]).2 = 0 ∧
    (pollStep cpuRule80gt ⟨false⟩ 70).2 = false ∧
    (pollStep cpuRule80gt ⟨false⟩ 85).2 = true :=
  ⟨alert_poller_edge_triggered.1,
   alert_poller_edge_triggered.2.2.1 cpuRule80gt ⟨true⟩ [85, 90] rfl (by decide),
   (alert_poller_edge_triggered.2.2.2.1 cpuRule80gt ⟨false⟩ 70 (by decide)).2,
   alert_poller_edge_triggered.2.2.2.2 cpuRule80gt ⟨false⟩ 85 rfl (by decide)⟩

/-- Presence of an id is preserved by inserting another template. -/
theorem hasId_seedOne (r : List AppTemplate) (u : AppTemplate) (i : String)
    (h : hasId r i = true) : hasId (seedOne r u) i = true := by
  unfold seedOne
  split
  · exact h
  · simp only [hasId, List.any_append] at h ⊢
    simp [h]

/-- After inserting a template its id is present. -/
theorem hasId_seedOne_self (r : List AppTemplate) (t : AppTemplate) :
    hasId (seedOne r t) t.id = true := by
  unfold seedOne
  split
  · assumption
  · simp [hasId, List.any_append]

/-- Presence of an id is preserved by a whole seeding fold. -/
theorem hasId_foldl_seedOne (ts : List AppTemplate) :
    ∀ (r : List AppTemplate) (i : String), hasId r i = true →
      hasId (ts.foldl seedOne r) i = true := by
  induction ts with
  | nil => intro r i h; exact h
  | cons a as ih =>
    intro r i h
    exact ih (seedOne r a) i (hasId_seedOne r a i h)

/-- Every id of the seeded list is present after the fold. -/
theorem hasId_foldl_seedOne_mem (ts : List AppTemplate) :
    ∀ (r : List AppTemplate) (t : AppTemplate), t ∈ ts →
      hasId (ts.foldl seedOne r) t.id = true := by
  induction ts with
  | nil => intro r t h; cases h
  | cons a as ih =>
    intro r t h
    rcases List.mem_cons.mp h with h | h
    · subst h
      exact hasId_foldl_seedOne as (seedOne r t) t.id (hasId_seedOne_self r t)
    · exact ih (seedOne r a) t h

/-- Seeding templates whose ids are all present is a no-op. -/
theorem foldl_seedOne_noop (ts : List AppTemplate) :
    ∀ r : List AppTemplate, (∀ t ∈ ts, hasId r t.id = true) →
      ts.foldl seedOne r = r := by
  induction ts with
  | nil => intro r _; rfl
  | cons a as ih =>
    intro r hall
    have ha : seedOne r a = r := by
      unfold seedOne
      simp [hall a (List.mem_cons_self a as)]
    rw [List.foldl_cons, ha]
    exact ih r fun t ht => hall t (List.mem_cons_of_mem a ht)

/-- Inserting a template preserves distinctness of the registry ids. -/
theorem nodup_seedOne (r : List AppTemplate) (t : AppTemplate)
    (h : (registryIds r).Nodup) : (registryIds (seedOne r t)).Nodup := by
  unfold seedOne
  split
  · exact h
  · rename_i hid
    have hnot : t.id ∉ registryIds r := by
      intro hmem
      apply hid
      simp only [registryIds, List.mem_map] at hmem
      obtain ⟨u, hu, hui⟩ := hmem
      simp only [hasId, List.any_eq_true]
      exact ⟨u, hu, by simp [hui]⟩
    simp only [registryIds, List.map_append, List.map_cons, List.map_nil]
    rw [List.nodup_append]
    refine ⟨h, List.nodup_singleton _, ?_⟩
    intro a ha hb
    rw [List.mem_singleton] at hb
    subst hb
    exact hnot ha

/-- A seeding fold preserves distinctness of the registry ids. -/
theorem nodup_foldl_seedOne (ts : List AppTemplate) :
    ∀ r : List AppTemplate, (registryIds r).Nodup →
      (registryIds (ts.foldl seedOne r)).Nodup := by
  induction ts with
  | nil => intro r h; exact h
  | cons a as ih =>
    intro r h
    exact ih (seedOne r a) (nodup_seedOne r a h)

set_option maxHeartbeats 1000000 in
/-- C5, counterexample: on a registry state that already holds a duplicate id,
running seed twice does not leave a registry without duplicate ids — seed
skips templates whose id exists and never removes pre-existing duplicates. -/
theorem seed_twice_keeps_preexisting_duplicates :
    ¬ (registryIds (seed (seed dupRegistry))).Nodup := by
  decide

/-- C5, amended: for every registry state the second seed leaves the registry
unchanged (a no-op for every template whose id already exists), and for every
registry state whose ids are already distinct, seeding once or twice leaves
the registry with no duplicate template ids. -/
theorem seed_idempotent (r : List AppTemplate) :
    seed (seed r) = seed r ∧
    ((registryIds r).Nodup →
      (registryIds (seed r)).Nodup ∧ (registryIds (seed (seed r))).Nodup) := by
  have hfix : seed (seed r) = seed r :=
    foldl_seedOne_noop builtinCatalog (seed r)
      fun t ht => hasId_foldl_seedOne_mem builtinCatalog r t ht
  refine ⟨hfix, fun h => ?_⟩
  have hone : (registryIds (seed r)).Nodup := nodup_foldl_seedOne builtinCatalog r h
  refine ⟨hone, ?_⟩
  rw [hfix]
  exact hone

/-- C5, witness: the unconditional no-op part of the amended seed theorem at
the duplicate-id registry itself, and the distinct-ids part at the empty
registry. -/
theorem seed_idempotent_witness :
    seed (seed dupRegistry) = seed dupRegistry ∧
    (registryIds (seed ([] : List AppTemplate))).Nodup ∧
    (registryIds (seed (seed ([] : List AppTemplate)))).Nodup :=
  ⟨(seed_idempotent dupRegistry).1, (seed_idempotent []).2 (by decide)⟩

/-- C6: when the current digest equals the latest pulled digest the update
performs no stop, remove or create call and returns the container unchanged;
when they differ it stops, removes and recreates with the identical spec, the
new digest and a new id. -/
theorem updateContainer_frame (c : Container) (d fid : String) :
    (c.imageDigest = d →
      (updateContainer c d fid).1 = c ∧
      (updateContainer c d fid).1.id = c.id ∧
      ∀ call ∈ (updateContainer c d fid).2, isMutatingCall call = false) ∧
    (c.imageDigest ≠ d →
      (updateContainer c d fid).2
          = [.inspectImage c.id, .pullImage c.spec.image, .stopContainer c.id,
             .removeContainer c.id, .createContainer c.spec] ∧
      (updateContainer c d fid).1.spec = c.spec ∧
      (updateContainer c d fid).1.imageDigest = d ∧
      (updateContainer c d fid).1.id = fid) := by
  constructor
  · intro h
    refine ⟨by simp [updateContainer, h], by simp [updateContainer, h], ?_⟩
    intro call hcall
    simp only [updateContainer, h, if_pos] at hcall
    rcases List.mem_cons.mp hcall with h1 | h1
    · subst h1; rfl
    · rcases List.mem_cons.mp h1 with h2 | h2
      · subst h2; rfl
      · cases h2
  · intro h
    exact ⟨by simp [updateContainer, h], by simp [updateContainer, h],
      by simp [updateContainer, h], by simp [updateContainer, h]⟩

/-- C6, witness: the frame theorem applied to a container whose digest equals
the latest digest, and to one whose digest differs. -/
theorem updateContainer_frame_witness :
    ((updateContainer sampleContainer "sha256:aaa" "fresh").1 = sampleContainer ∧
      (updateContainer sampleContainer "sha256:aaa" "fresh").1.id = sampleContainer.id ∧
      ∀ call ∈ (updateContainer sampleContainer "sha256:aaa" "fresh").2,
        isMutatingCall call = false) ∧
    ((updateContainer sampleContainer "sha256:bbb" "fresh").2
        = [.inspectImage sampleContainer.id, .pullImage sampleContainer.spec.image,
           .stopContainer sampleContainer.id, .removeContainer sampleContainer.id,
           .createContainer sampleContainer.spec] ∧
      (updateContainer sampleContainer "sha256:bbb" "fresh").1.spec = sampleContainer.spec ∧
      (updateContainer sampleContainer "sha256:bbb" "fresh").1.imageDigest = "sha256:bbb" ∧
      (updateContainer sampleContainer "sha256:bbb" "fresh").1.id = "fresh") :=
  ⟨(updateContainer_frame sampleContainer "sha256:aaa" "fresh").1 rfl,
   (updateContainer_frame sampleContainer "sha256:bbb" "fresh").2 (by decide)⟩

/-- One step preserves the dialog invariant and only issues DELETE requests
for non-built-in networks. -/
theorem networksStep_safe (st : NetworksPageState) (e : NetworksEvent)
    (h : dialogInvariant st) :
    dialogInvariant (networksStep st e).1 ∧
    ∀ q ∈ (networksStep st e).2, ∀ n : DockerNetwork,
      q = .deleteNetwork (some n) → builtinNetworkNames.contains n.name = false := by
  cases e with
  | clickRemoveButton n =>
    cases hb : st.networks.contains n && removeButtonShown n with
    | true =>
      have hshown : removeButtonShown n = true := by
        rcases Bool.and_eq_true_iff.mp hb with ⟨_, h2⟩
        exact h2
      have hname : builtinNetworkNames.contains n.name = false := by
        simp only [removeButtonShown, Bool.not_eq_true'] at hshown
        exact hshown
      constructor
      · intro m hm
        simp only [networksStep] at hm
        rw [hb] at hm
        simp only [if_true] at hm
        simp only [Option.some.injEq] at hm
        rw [← hm]
        exact hname
      · intro q hq
        simp only [networksStep] at hq
        rw [hb] at hq
        simp at hq
    | false =>
      constructor
      · intro m hm
        simp only [networksStep] at hm
        rw [hb] at hm
        simp only [Bool.false_eq_true, if_false] at hm
        exact h m hm
      · intro q hq
        simp only [networksStep] at hq
        rw [hb] at hq
        simp at hq
  | dialogOpenChange b =>
    constructor
    · intro m hm
      simp [networksStep] at hm
    · intro q hq
      simp [networksStep] at hq
  | confirmRemove =>
    cases hb : st.dialogOpen with
    | true =>
      constructor
      · intro m hm
        simp only [networksStep] at hm
        rw [hb] at hm
        simp at hm
      · intro q hq
        simp only [networksStep] at hq
        rw [hb] at hq
        simp only [if_true, List.mem_singleton] at hq
        intro n hn
        subst hq
        injection hn with hn
        exact h n hn
    | false =>
      constructor
      · intro m hm
        simp only [networksStep] at hm
        rw [hb] at hm
        simp only [Bool.false_eq_true, if_false] at hm
        exact h m hm
      · intro q hq
        simp only [networksStep] at hq
        rw [hb] at hq
        simp at hq

/-- A run from a state satisfying the dialog invariant only issues DELETE
requests for non-built-in networks. -/
theorem networksRun_safe (events : List NetworksEvent) :
    ∀ st : NetworksPageState, dialogInvariant st →
      ∀ q ∈ (networksRun st events).2, ∀ n : DockerNetwork,
        q = .deleteNetwork (some n) → builtinNetworkNames.contains n.name = false := by
  induction events with
  | nil =>
    intro st _ q hq
    simp [networksRun] at hq
  | cons e rest ih =>
    intro st h q hq
    simp only [networksRun, List.mem_append] at hq
    rcases hq with hq | hq
    · exact (networksStep_safe st e h).2 q hq
    · exact ih (networksStep st e).1 (networksStep_safe st e h).1 q hq

/-- C9: starting from a freshly loaded Networks page, no interaction sequence
makes the page issue a DELETE request for a network named bridge, host or
none — the remove button, the only path to the confirmation dialog, is not
rendered for those networks. -/
theorem networks_never_delete_builtin (nets : List DockerNetwork)
    (events : List NetworksEvent) (q : NetworksRequest)
    (hq : q ∈ (networksRun (initialNetworksState nets) events).2)
    (n : DockerNetwork) (hn : q = .deleteNetwork (some n)) :
    builtinNetworkNames.contains n.name = false :=
  networksRun_safe events (initialNetworksState nets)
    (fun m hm => by simp [initialNetworksState] at hm) q hq n hn

/-- C9, witness: the theorem applied to a page listing one user network, the
trace that opens and confirms its delete dialog, and the request that trace
issues. -/
theorem networks_never_delete_builtin_witness :
    builtinNetworkNames.contains (DockerNetwork.mk "n1" "mynet").name = false :=
  networks_never_delete_builtin [⟨"n1", "mynet"⟩]
    [.clickRemoveButton ⟨"n1", "mynet"⟩, .confirmRemove]
    (.deleteNetwork (some ⟨"n1", "mynet"⟩)) (by decide) ⟨"n1", "mynet"⟩ rfl

/-- C3, witness: the login theorem applied to the response with token "tok",
username "admin" and first_login true, submitted username "formuser". -/
theorem login_stores_token_and_user_witness :
    (handleSubmitSuccess "formuser" ⟨"tok", some "admin", some true⟩).1.token = "tok" ∧
    (handleSubmitSuccess "formuser" ⟨"tok", some "admin", some true⟩).1.user.username
        = "admin" ∧
    (handleSubmitSuccess "formuser" ⟨"tok", some "admin", some true⟩).1.user.first_login
        = ((some true).getD false) ∧
    (handleSubmitSuccess "formuser" ⟨"tok", some "admin", some true⟩).2 = "/" ∧
    (∀ r : AuthResponse, r.username = none →
      (handleSubmitSuccess "formuser" r).1.user.username = "formuser") :=
  login_stores_token_and_user "formuser" ⟨"tok", some "admin", some true⟩ "admin"
    rfl (by decide)

end MediaBasher
